import Mathlib

/-!
Verification of the image-agent orchestration core of the repository
(`services/agent.py`, `services/image_tools.py`).

External collaborators (the language model, the Serper search API, the
Doubao generation API, and the MinIO object store) are modelled as oracle
parameters: each call site receives the outcome the external service would
produce.  Python dicts returned by the tools are modelled as a record with
optional fields (a missing key is `none`); a Python function returning
`None` on failure is modelled with `Option`.
-/

/-- Result record produced by the image tools.  A missing dict key is
`none`; a key present with value `None` is also `none` where the source
can store `None` under a key (`presigned_url`). -/
structure ImageResult where
  success : Bool
  minio_path : Option String := none
  presigned_url : Option String := none
  original_url : Option String := none
  title : Option String := none
  source : Option String := none
  prompt : Option String := none
  message : Option String := none
deriving Repr, DecidableEq

/-- Python f-string rendering of a value that may be `None`. -/
def pyStr : Option String → String
  | some s => s
  | none => "None"

/-- One entry of the Serper `images` array; keys may be missing. -/
structure SerperImage where
  imageUrl : Option String := none
  title : Option String := none
  source : Option String := none
deriving Repr, DecidableEq

/-- Outcome of the Serper image-search HTTP call: an exception
(HTTP error, timeout, connection error) or a decoded `images` array. -/
inductive SearchApiResult where
  | error : SearchApiResult
  | ok : List SerperImage → SearchApiResult
deriving Repr, DecidableEq

/-- One entry of the Doubao `data` array; the `url` key may be missing. -/
structure DoubaoItem where
  url : Option String := none
deriving Repr, DecidableEq

/-- Outcome of the Doubao generation HTTP call: an exception
(HTTP status error, timeout, other) or a decoded `data` array. -/
inductive GenApiResult where
  | error : GenApiResult
  | ok : List DoubaoItem → GenApiResult
deriving Repr, DecidableEq

/-- The object-store boundary (`minio_client`): `upload_image_from_url`
returns a storage path or fails with `none`; `get_image_url` returns a
presigned URL for a path or fails with `none`. -/
structure MinioEnv where
  upload_image_from_url : String → String → Option String
  get_image_url : String → Option String

/-- `ImageSearchTool.search_image` (services/image_tools.py): requests one
result from Serper; on any exception, empty result set, missing or falsy
image URL, or failed upload it returns `none`; on the single success path
it returns a `success := true` record whose `presigned_url` is whatever
`get_image_url` produced. -/
def ImageSearchTool.search_image (menv : MinioEnv) (api : SearchApiResult)
    (_query : String) : Option ImageResult :=
  match api with
  | .error => none
  | .ok images =>
    match images with
    | [] => none
    | first :: _ =>
      match first.imageUrl with
      | none => none
      | some image_url =>
        if image_url = "" then none
        else
          match menv.upload_image_from_url image_url "search-results" with
          | none => none
          | some minio_path =>
            some { success := true
                   original_url := some image_url
                   minio_path := some minio_path
                   presigned_url := menv.get_image_url minio_path
                   title := some (first.title.getD "")
                   source := some (first.source.getD "") }

/-- `ImageGenerationTool.generate_image_simple` (services/image_tools.py):
mock mode; unconditionally returns a `success := false` record carrying the
prompt and a fixed configuration message. -/
def ImageGenerationTool.generate_image_simple (prompt : String)
    (_reference_image_url : Option String) : ImageResult :=
  { success := false
    minio_path := none
    presigned_url := none
    prompt := some prompt
    message := some "请配置 DOUBAO_API_KEY 以启用真实的图片生成功能" }

/-- `ImageGenerationTool.generate_image` (services/image_tools.py): the
real provider path.  Without an API key it delegates to the mock.  On a
provider exception, empty `data`, or falsy `url` it returns `none`.  On a
provider URL it uploads to MinIO; if the upload succeeds, the field
`presigned_url` is whatever `get_image_url` produced, and if the upload
fails it still returns `success := true` with the provider original URL
as `presigned_url`. -/
def ImageGenerationTool.generate_image (api_key_set : Bool) (menv : MinioEnv)
    (api : GenApiResult) (prompt : String)
    (reference_image_url : Option String) : Option ImageResult :=
  if api_key_set = false then
    some (ImageGenerationTool.generate_image_simple prompt reference_image_url)
  else
    match api with
    | .error => none
    | .ok items =>
      match items with
      | [] => none
      | item :: _ =>
        match item.url with
        | none => none
        | some generated_image_url =>
          if generated_image_url = "" then none
          else
            match menv.upload_image_from_url generated_image_url "generated-images" with
            | some minio_path =>
              some { success := true
                     minio_path := some minio_path
                     presigned_url := menv.get_image_url minio_path
                     prompt := some prompt
                     original_url := some generated_image_url }
            | none =>
              some { success := true
                     minio_path := none
                     presigned_url := some generated_image_url
                     prompt := some prompt
                     original_url := some generated_image_url }

/-- Outcome of the intent-classification LLM call plus JSON parse, as seen
by the `try` block of `analyze_intent`: the model call raised, the reply
could not be parsed as JSON, or it parsed to an object whose `need_image`
key is truthy or not and whose `search_query` key may be missing. -/
inductive IntentReply where
  | callError : IntentReply
  | parseError : IntentReply
  | parsed : Bool → Option String → IntentReply
deriving Repr, DecidableEq

/-- The agent state threaded through the LangGraph (`AgentState` in
services/agent.py).  The Python dicts `reference_image` and
`generated_image` start as `{}`, modelled by `none`. -/
structure AgentState where
  messages : List (String × String)
  user_input : String
  need_image_generation : Bool
  search_query : String
  reference_image : Option ImageResult
  generated_image : Option ImageResult
  response : String
deriving Repr, DecidableEq

/-- The external environment of one turn: the outcome each external call
would produce, as a function of the argument the code passes. -/
structure Env where
  intentReply : String → IntentReply
  refineReply : String → Option String
  chatReply : List (String × String) → String → Option String
  searchApi : String → SearchApiResult
  minio : MinioEnv

/-- Node `analyze_intent` (services/agent.py): classify the input; on any
exception (model call or JSON parse) default `need_image_generation` to
false; on a parsed reply take `need_image` (missing key defaults false)
and, only when it is truthy, set `search_query` (missing key defaults to
the raw input). -/
def ImageAgent.analyze_intent (env : Env) (s : AgentState) : AgentState :=
  match env.intentReply s.user_input with
  | .callError => { s with need_image_generation := false }
  | .parseError => { s with need_image_generation := false }
  | .parsed need_image search_query =>
    if need_image then
      { s with need_image_generation := true
               search_query := search_query.getD s.user_input }
    else
      { s with need_image_generation := false }

/-- Conditional router `route_after_intent` (services/agent.py). -/
def ImageAgent.route_after_intent (s : AgentState) : String :=
  if s.need_image_generation then "search" else "chat"

/-- Node `search_image` (services/agent.py): call the search tool; a
returned record is stored in `reference_image`, a `None` result stores the
empty dict. -/
def ImageAgent.search_image (env : Env) (s : AgentState) : AgentState :=
  match ImageSearchTool.search_image env.minio (env.searchApi s.search_query)
      s.search_query with
  | some result => { s with reference_image := some result }
  | none => { s with reference_image := none }

/-- Node `generate_image` (services/agent.py): refine the prompt with the
LLM, falling back to `search_query` on failure; read the reference URL
from `reference_image` if that dict is non-empty; then call
`generate_image_simple` (not the real provider).  The mock always returns
a truthy dict, so `generated_image` is always set to its record. -/
def ImageAgent.generate_image (env : Env) (s : AgentState) : AgentState :=
  let generation_prompt := (env.refineReply s.user_input).getD s.search_query
  let reference_url :=
    match s.reference_image with
    | some r => r.presigned_url
    | none => none
  let result := ImageGenerationTool.generate_image_simple generation_prompt
      reference_url
  { s with generated_image := some result }

/-- Node `normal_chat` (services/agent.py): call the chat model with the
recent history and the input; on failure set a fixed apology string. -/
def ImageAgent.normal_chat (env : Env) (s : AgentState) : AgentState :=
  match env.chatReply s.messages s.user_input with
  | some content => { s with response := content }
  | none => { s with response := "抱歉，我遇到了一些问题，请稍后再试。" }

/-- The reference-image lines of `format_response`: the found pair when
`reference_image.get("success")` is truthy, else the fixed
no-reference-found line. -/
def ImageAgent.refParts (s : AgentState) : List String :=
  match s.reference_image with
  | some r =>
    if r.success then
      ["✅ 已找到参考图片：" ++ r.title.getD "样例图片",
       "📷 参考图片链接：" ++ pyStr r.presigned_url]
    else
      ["⚠️ 未找到合适的参考图片"]
  | none => ["⚠️ 未找到合适的参考图片"]

/-- The generation lines of `format_response`: the three-part success
block when `generated_image.get("success")` is truthy, else the fixed
generation-failed line. -/
def ImageAgent.genParts (s : AgentState) : List String :=
  match s.generated_image with
  | some g =>
    if g.success then
      ["\n✨ 已根据您的需求生成新图片！",
       "🎨 生成的图片链接：" ++ pyStr g.presigned_url,
       "💡 生成提示词：" ++ g.prompt.getD ""]
    else
      ["\n❌ 图片生成失败，请稍后重试"]
  | none => ["\n❌ 图片生成失败，请稍后重试"]

/-- Node `format_response` (services/agent.py): on the image branch join
the reference lines followed by the generation lines with newlines; on the
chat branch leave the state untouched. -/
def ImageAgent.format_response (s : AgentState) : AgentState :=
  if s.need_image_generation then
    { s with response :=
        String.intercalate "\n" (ImageAgent.refParts s ++ ImageAgent.genParts s) }
  else s

/-- The nodes of the graph (plus the START pseudo-node). -/
inductive GNode where
  | START : GNode
  | analyze_intent : GNode
  | search_image : GNode
  | generate_image : GNode
  | normal_chat : GNode
  | format_response : GNode
deriving Repr, DecidableEq

/-- The edge relation of the compiled graph (`_build_graph`): START to
`analyze_intent`; conditional edges from `analyze_intent` through
`route_after_intent` mapping "search" to `search_image` and "chat" to
`normal_chat`; then the fixed edges; `format_response` goes to END
(`none`). -/
def ImageAgent.nextNode (s : AgentState) : GNode → Option GNode
  | .START => some .analyze_intent
  | .analyze_intent =>
    if ImageAgent.route_after_intent s = "search" then some .search_image
    else if ImageAgent.route_after_intent s = "chat" then some .normal_chat
    else none
  | .search_image => some .generate_image
  | .generate_image => some .format_response
  | .normal_chat => some .format_response
  | .format_response => none

/-- Run the state update of one node. -/
def ImageAgent.stepNode (env : Env) : GNode → AgentState → AgentState
  | .START, s => s
  | .analyze_intent, s => ImageAgent.analyze_intent env s
  | .search_image, s => ImageAgent.search_image env s
  | .generate_image, s => ImageAgent.generate_image env s
  | .normal_chat, s => ImageAgent.normal_chat env s
  | .format_response, s => ImageAgent.format_response s

/-- Execute the graph from a node, following edges until END, recording
the nodes executed.  Fuel bounds the acyclic walk. -/
def ImageAgent.runGraph (env : Env) : Nat → GNode → AgentState →
    AgentState × List GNode
  | 0, _, s => (s, [])
  | fuel + 1, n, s =>
    match ImageAgent.nextNode s n with
    | none => (s, [])
    | some n2 =>
      let s2 := ImageAgent.stepNode env n2 s
      let rest := ImageAgent.runGraph env fuel n2 s2
      (rest.1, n2 :: rest.2)

/-- The initial state built by `ImageAgent.run`. -/
def ImageAgent.initialState (user_input : String)
    (conversation_history : List (String × String)) : AgentState :=
  { messages := conversation_history
    user_input := user_input
    need_image_generation := false
    search_query := ""
    reference_image := none
    generated_image := none
    response := "" }

/-- `ImageAgent.run`: build the initial state and execute the graph from
START; returns the final state and the trace of executed nodes. -/
def ImageAgent.run (env : Env) (user_input : String)
    (conversation_history : List (String × String)) :
    AgentState × List GNode :=
  ImageAgent.runGraph env 6 .START
    (ImageAgent.initialState user_input conversation_history)

/-- Truthiness of the source condition `reference_image.get("success")`. -/
def ImageAgent.refSuccessB (s : AgentState) : Bool :=
  match s.reference_image with
  | some r => r.success
  | none => false

/-- Truthiness of the source condition `generated_image.get("success")`. -/
def ImageAgent.genSuccessB (s : AgentState) : Bool :=
  match s.generated_image with
  | some g => g.success
  | none => false

/-! Concrete test data used by witnesses and counterexamples. -/

/-- Object store where upload and URL signing both succeed. -/
def menvOk : MinioEnv :=
  { upload_image_from_url := fun _ _ => some "search-results/cat.jpg"
    get_image_url := fun _ => some "http://minio/sr" }

/-- Object store where upload succeeds but presigned-URL signing fails. -/
def menvSignFail : MinioEnv :=
  { upload_image_from_url := fun _ _ => some "search-results/cat.jpg"
    get_image_url := fun _ => none }

/-- Object store where upload fails. -/
def menvUploadFail : MinioEnv :=
  { upload_image_from_url := fun _ _ => none
    get_image_url := fun _ => none }

/-- A Serper response with one usable image. -/
def apiCat : SearchApiResult :=
  .ok [{ imageUrl := some "http://img/cat.jpg", title := some "cat"
         source := some "web" }]

/-- A Doubao response with one usable generated-image URL. -/
def genApiOk : GenApiResult := .ok [{ url := some "http://gen/img.jpg" }]

/-- Environment in which the classifier signals an image request and every
downstream call succeeds. -/
def envImage : Env :=
  { intentReply := fun _ => .parsed true (some "猫")
    refineReply := fun _ => some "a cat"
    chatReply := fun _ _ => some "你好呀"
    searchApi := fun _ => apiCat
    minio := menvOk }

/-- Environment in which the classifier signals an ordinary chat turn. -/
def envChat : Env :=
  { envImage with intentReply := fun _ => .parsed false none }

/-- Environment in which the classification model call raises. -/
def envCallErr : Env :=
  { envImage with intentReply := fun _ => .callError }

/-- Environment in which the classification reply is not valid JSON. -/
def envParseErr : Env :=
  { envImage with intentReply := fun _ => .parseError }

/-- The search record produced by `envImage` for the query 猫. -/
def catRecOk : ImageResult :=
  { success := true, minio_path := some "search-results/cat.jpg"
    presigned_url := some "http://minio/sr"
    original_url := some "http://img/cat.jpg"
    title := some "cat", source := some "web" }

/-- The search record produced when signing fails after a successful
upload: success is reported with no retrieval URL. -/
def catRecNoUrl : ImageResult :=
  { success := true, minio_path := some "search-results/cat.jpg"
    presigned_url := none
    original_url := some "http://img/cat.jpg"
    title := some "cat", source := some "web" }

/-- A successful generation record, as the real provider path would store
it after a stored-and-signed generation. -/
def genRecOk : ImageResult :=
  { success := true, minio_path := some "generated-images/b.jpg"
    presigned_url := some "http://minio/gen"
    original_url := some "http://gen/img.jpg"
    prompt := some "a cat" }

/-- An image-branch state in which both the reference search and the
generation report success. -/
def sBoth : AgentState :=
  { messages := [], user_input := "我要一张猫的图片"
    need_image_generation := true, search_query := "猫"
    reference_image := some catRecOk
    generated_image := some genRecOk
    response := "" }

/-! Structural lemmas: which state fields each node can change. -/

/-- The formatter never changes `generated_image`. -/
theorem ImageAgent.format_response_generated_image (s : AgentState) :
    (ImageAgent.format_response s).generated_image = s.generated_image := by
  unfold ImageAgent.format_response
  split <;> rfl

/-- The formatter never changes `reference_image`. -/
theorem ImageAgent.format_response_reference_image (s : AgentState) :
    (ImageAgent.format_response s).reference_image = s.reference_image := by
  unfold ImageAgent.format_response
  split <;> rfl

/-- The formatter never changes `need_image_generation`. -/
theorem ImageAgent.format_response_need_image (s : AgentState) :
    (ImageAgent.format_response s).need_image_generation =
      s.need_image_generation := by
  unfold ImageAgent.format_response
  split <;> rfl

/-- `normal_chat` never changes `generated_image`. -/
theorem ImageAgent.normal_chat_generated_image (env : Env) (s : AgentState) :
    (ImageAgent.normal_chat env s).generated_image = s.generated_image := by
  unfold ImageAgent.normal_chat
  split <;> rfl

/-- `normal_chat` never changes `reference_image`. -/
theorem ImageAgent.normal_chat_reference_image (env : Env) (s : AgentState) :
    (ImageAgent.normal_chat env s).reference_image = s.reference_image := by
  unfold ImageAgent.normal_chat
  split <;> rfl

/-- `normal_chat` never changes `need_image_generation`. -/
theorem ImageAgent.normal_chat_need_image (env : Env) (s : AgentState) :
    (ImageAgent.normal_chat env s).need_image_generation =
      s.need_image_generation := by
  unfold ImageAgent.normal_chat
  split <;> rfl

/-- The generation node stores exactly the mock result, built from the
refined prompt and the reference presigned URL. -/
theorem ImageAgent.generate_image_generated_image (env : Env)
    (s : AgentState) :
    (ImageAgent.generate_image env s).generated_image =
      some (ImageGenerationTool.generate_image_simple
        ((env.refineReply s.user_input).getD s.search_query)
        (match s.reference_image with
         | some r => r.presigned_url
         | none => none)) := rfl

/-- The generation node never changes `reference_image`. -/
theorem ImageAgent.generate_image_reference_image (env : Env)
    (s : AgentState) :
    (ImageAgent.generate_image env s).reference_image =
      s.reference_image := rfl

/-- The search node stores exactly the search tool result (the empty dict
becoming `none`). -/
theorem ImageAgent.search_image_reference_image (env : Env)
    (s : AgentState) :
    (ImageAgent.search_image env s).reference_image =
      ImageSearchTool.search_image env.minio (env.searchApi s.search_query)
        s.search_query := by
  unfold ImageAgent.search_image
  split <;> simp_all

/-- The search node never changes `generated_image`. -/
theorem ImageAgent.search_image_generated_image (env : Env)
    (s : AgentState) :
    (ImageAgent.search_image env s).generated_image = s.generated_image := by
  unfold ImageAgent.search_image
  split <;> rfl

/-- Any record the search tool returns has `success = true`, a populated
storage handle, and exactly the presigned URL the signing call produced
for that handle. -/
theorem ImageSearchTool.search_image_success (menv : MinioEnv)
    (api : SearchApiResult) (q : String) (r : ImageResult)
    (h : ImageSearchTool.search_image menv api q = some r) :
    r.success = true ∧
    ∃ mp, r.minio_path = some mp ∧
      r.presigned_url = menv.get_image_url mp := by
  unfold ImageSearchTool.search_image at h
  rcases api with _ | images
  · simp at h
  · rcases images with _ | ⟨first, rest⟩
    · simp at h
    · rcases hu : first.imageUrl with _ | url <;> simp [hu] at h
      split at h
      · simp at h
      · rename_i mp hup
        obtain ⟨hne, hr⟩ := h
        injection hr with hr
        subst hr
        exact ⟨rfl, mp, rfl, rfl⟩

/-- Any record the real generation tool returns (API key configured) has
`success = true`, and either a stored handle whose signing result is the
presigned URL, or — when the upload failed — no handle and the provider
original URL as the presigned URL. -/
theorem ImageGenerationTool.generate_image_success (menv : MinioEnv)
    (api : GenApiResult) (p : String) (ref : Option String)
    (r : ImageResult)
    (h : ImageGenerationTool.generate_image true menv api p ref = some r) :
    r.success = true ∧
    ((∃ mp, r.minio_path = some mp ∧
        r.presigned_url = menv.get_image_url mp) ∨
     (r.minio_path = none ∧ ∃ u, u ≠ "" ∧ r.presigned_url = some u ∧
        r.original_url = some u)) := by
  unfold ImageGenerationTool.generate_image at h
  simp at h
  rcases api with _ | items
  · simp at h
  · rcases items with _ | ⟨item, rest⟩
    · simp at h
    · rcases hu : item.url with _ | url <;> simp [hu] at h
      split at h
      · rename_i mp hup
        obtain ⟨hne, hr⟩ := h
        injection hr with hr
        subst hr
        exact ⟨rfl, Or.inl ⟨mp, rfl, rfl⟩⟩
      · obtain ⟨hne, hr⟩ := h
        injection hr with hr
        subst hr
        exact ⟨rfl, Or.inr ⟨rfl, url, hne, rfl, rfl⟩⟩

/-! Claim theorems. -/

/-- C1: whenever the intent classifier signals an image request, the
compiled graph executes the search_image node and then the generate_image
node, each exactly once and in that order, and the turn continues to the
format_response node for every outcome of the search, storage, refinement
and chat oracles: node failure is data in the state, never a control-flow
exit. -/
theorem ImageAgent.image_branch_trace (env : Env) (input : String)
    (hist : List (String × String)) (q : Option String)
    (h : env.intentReply input = .parsed true q) :
    (ImageAgent.run env input hist).2 =
      [.analyze_intent, .search_image, .generate_image, .format_response] ∧
    (ImageAgent.run env input hist).2.count .search_image = 1 ∧
    (ImageAgent.run env input hist).2.count .generate_image = 1 ∧
    (ImageAgent.run env input hist).2.getLast? = some .format_response := by
  have ht : (ImageAgent.run env input hist).2 =
      [.analyze_intent, .search_image, .generate_image, .format_response] := by
    simp [ImageAgent.run, ImageAgent.runGraph, ImageAgent.initialState,
      ImageAgent.nextNode, ImageAgent.stepNode, ImageAgent.analyze_intent, h,
      ImageAgent.route_after_intent]
  refine ⟨ht, ?_, ?_, ?_⟩ <;> rw [ht] <;> rfl

/-- C1 witness at a concrete environment and input. -/
theorem ImageAgent.image_branch_trace_witness :
    (ImageAgent.run envImage "我要一张猫的图片" []).2 =
      [.analyze_intent, .search_image, .generate_image, .format_response] :=
  (ImageAgent.image_branch_trace envImage "我要一张猫的图片" [] (some "猫")
    rfl).1

/-- C2: whenever the intent classifier signals an ordinary chat turn, the
graph never executes the search_image or generate_image nodes, and when
the chat model replies, the final response is exactly that reply,
unmodified by the formatter. -/
theorem ImageAgent.chat_branch_verbatim_reply (env : Env) (input : String)
    (hist : List (String × String)) (q : Option String) (t : String)
    (h1 : env.intentReply input = .parsed false q)
    (h2 : env.chatReply hist input = some t) :
    (ImageAgent.run env input hist).2 =
      [.analyze_intent, .normal_chat, .format_response] ∧
    GNode.search_image ∉ (ImageAgent.run env input hist).2 ∧
    GNode.generate_image ∉ (ImageAgent.run env input hist).2 ∧
    (ImageAgent.run env input hist).1.response = t := by
  have ht : (ImageAgent.run env input hist).2 =
      [.analyze_intent, .normal_chat, .format_response] := by
    simp [ImageAgent.run, ImageAgent.runGraph, ImageAgent.initialState,
      ImageAgent.nextNode, ImageAgent.stepNode, ImageAgent.analyze_intent, h1,
      ImageAgent.route_after_intent]
  refine ⟨ht, ?_, ?_, ?_⟩
  · rw [ht]; simp
  · rw [ht]; simp
  · simp [ImageAgent.run, ImageAgent.runGraph, ImageAgent.initialState,
      ImageAgent.nextNode, ImageAgent.stepNode, ImageAgent.analyze_intent, h1,
      ImageAgent.route_after_intent, ImageAgent.normal_chat, h2,
      ImageAgent.format_response]

/-- C2 witness at a concrete environment and input. -/
theorem ImageAgent.chat_branch_verbatim_reply_witness :
    (ImageAgent.run envChat "你好" []).2 =
      [.analyze_intent, .normal_chat, .format_response] ∧
    (ImageAgent.run envChat "你好" []).1.response = "你好呀" := by
  have h := ImageAgent.chat_branch_verbatim_reply envChat "你好" [] none
    "你好呀" rfl rfl
  exact ⟨h.1, h.2.2.2⟩

/-- C6: when the classification model call raises or its reply is not
parseable JSON, the classifier defaults needs_image to false and the turn
completes on the conversational branch; the node is total, so no
exception reaches the orchestrator. -/
theorem ImageAgent.classifier_failure_defaults_chat (env : Env)
    (input : String) (hist : List (String × String))
    (h : env.intentReply input = .callError ∨
         env.intentReply input = .parseError) :
    (ImageAgent.run env input hist).1.need_image_generation = false ∧
    (ImageAgent.run env input hist).2 =
      [.analyze_intent, .normal_chat, .format_response] := by
  rcases h with h | h <;>
  · cases hc : env.chatReply hist input <;>
      refine ⟨?_, ?_⟩ <;>
      simp [ImageAgent.run, ImageAgent.runGraph, ImageAgent.initialState,
        ImageAgent.nextNode, ImageAgent.stepNode, ImageAgent.analyze_intent, h,
        ImageAgent.route_after_intent, ImageAgent.normal_chat, hc,
        ImageAgent.format_response]

/-- C6 witness at concrete environments for both failure modes. -/
theorem ImageAgent.classifier_failure_defaults_chat_witness :
    ((ImageAgent.run envCallErr "我要一张猫的图片" []).1.need_image_generation
      = false ∧
     (ImageAgent.run envCallErr "我要一张猫的图片" []).2 =
       [.analyze_intent, .normal_chat, .format_response]) ∧
    (ImageAgent.run envParseErr "我要一张猫的图片" []).2 =
      [.analyze_intent, .normal_chat, .format_response] :=
  ⟨ImageAgent.classifier_failure_defaults_chat envCallErr "我要一张猫的图片"
      [] (Or.inl rfl),
   (ImageAgent.classifier_failure_defaults_chat envParseErr "我要一张猫的图片"
      [] (Or.inr rfl)).2⟩

/-- C3: the generation node calls the mock generate_image_simple, which
unconditionally reports success false; consequently the generated_image a
run produces is never a success record (the real provider path of
ImageGenerationTool.generate_image is unreachable from run). -/
theorem ImageAgent.run_generated_image_never_success :
    (∀ p ref, (ImageGenerationTool.generate_image_simple p ref).success
      = false) ∧
    ∀ env input hist g,
      (ImageAgent.run env input hist).1.generated_image = some g →
      g.success = false := by
  refine ⟨fun p ref => rfl, ?_⟩
  intro env input hist g h
  rcases hI : env.intentReply input with _ | _ | ⟨b, q⟩
  · cases hc : env.chatReply hist input <;>
      simp [ImageAgent.run, ImageAgent.runGraph, ImageAgent.initialState,
        ImageAgent.nextNode, ImageAgent.stepNode, ImageAgent.analyze_intent,
        hI, ImageAgent.route_after_intent, ImageAgent.normal_chat, hc,
        ImageAgent.format_response] at h
  · cases hc : env.chatReply hist input <;>
      simp [ImageAgent.run, ImageAgent.runGraph, ImageAgent.initialState,
        ImageAgent.nextNode, ImageAgent.stepNode, ImageAgent.analyze_intent,
        hI, ImageAgent.route_after_intent, ImageAgent.normal_chat, hc,
        ImageAgent.format_response] at h
  · cases b
    · cases hc : env.chatReply hist input <;>
        simp [ImageAgent.run, ImageAgent.runGraph, ImageAgent.initialState,
          ImageAgent.nextNode, ImageAgent.stepNode, ImageAgent.analyze_intent,
          hI, ImageAgent.route_after_intent, ImageAgent.normal_chat, hc,
          ImageAgent.format_response] at h
    · simp [ImageAgent.run, ImageAgent.runGraph, ImageAgent.initialState,
        ImageAgent.nextNode, ImageAgent.stepNode, ImageAgent.analyze_intent,
        hI, ImageAgent.route_after_intent,
        ImageAgent.format_response_generated_image,
        ImageAgent.generate_image_generated_image] at h
      rw [← h]
      rfl

/-- C3 witness: a concrete image-branch run whose generated_image is the
mock record, shown to be a non-success. -/
theorem ImageAgent.run_generated_image_never_success_witness :
    (ImageAgent.run envImage "我要一张猫的图片" []).1.generated_image =
      some (ImageGenerationTool.generate_image_simple "a cat"
        (some "http://minio/sr")) ∧
    (ImageGenerationTool.generate_image_simple "a cat"
      (some "http://minio/sr")).success = false :=
  ⟨rfl, ImageAgent.run_generated_image_never_success.2 envImage
    "我要一张猫的图片" [] _ rfl⟩

/-- C10: after any run, reference_image is either the empty dict or a
record with success true — a failed reference search is encoded as the
empty dict, never as an explicit success-false record — whereas
generated_image can hold an explicit success-false record, as a concrete
run shows. -/
theorem ImageAgent.reference_image_empty_or_success :
    (∀ env input hist r,
      (ImageAgent.run env input hist).1.reference_image = some r →
      r.success = true) ∧
    ∃ g, (ImageAgent.run envImage "我要一张猫的图片" []).1.generated_image
        = some g ∧ g.success = false := by
  refine ⟨?_, ImageGenerationTool.generate_image_simple "a cat"
    (some "http://minio/sr"), rfl, rfl⟩
  intro env input hist r h
  rcases hI : env.intentReply input with _ | _ | ⟨b, q⟩
  · cases hc : env.chatReply hist input <;>
      simp [ImageAgent.run, ImageAgent.runGraph, ImageAgent.initialState,
        ImageAgent.nextNode, ImageAgent.stepNode, ImageAgent.analyze_intent,
        hI, ImageAgent.route_after_intent, ImageAgent.normal_chat, hc,
        ImageAgent.format_response] at h
  · cases hc : env.chatReply hist input <;>
      simp [ImageAgent.run, ImageAgent.runGraph, ImageAgent.initialState,
        ImageAgent.nextNode, ImageAgent.stepNode, ImageAgent.analyze_intent,
        hI, ImageAgent.route_after_intent, ImageAgent.normal_chat, hc,
        ImageAgent.format_response] at h
  · cases b
    · cases hc : env.chatReply hist input <;>
        simp [ImageAgent.run, ImageAgent.runGraph, ImageAgent.initialState,
          ImageAgent.nextNode, ImageAgent.stepNode, ImageAgent.analyze_intent,
          hI, ImageAgent.route_after_intent, ImageAgent.normal_chat, hc,
          ImageAgent.format_response] at h
    · simp [ImageAgent.run, ImageAgent.runGraph, ImageAgent.initialState,
        ImageAgent.nextNode, ImageAgent.stepNode, ImageAgent.analyze_intent,
        hI, ImageAgent.route_after_intent,
        ImageAgent.format_response_reference_image,
        ImageAgent.generate_image_reference_image,
        ImageAgent.search_image_reference_image] at h
      exact (ImageSearchTool.search_image_success _ _ _ _ h).1

/-- C10 witness: a concrete successful search stores a success-true
record in reference_image. -/
theorem ImageAgent.reference_image_empty_or_success_witness :
    catRecOk.success = true :=
  ImageAgent.reference_image_empty_or_success.1 envImage "我要一张猫的图片"
    [] catRecOk rfl

/-- C4: in the real generation path, when the provider returns an image
URL but the upload to object storage fails, the result still has success
true and its retrieval URL is exactly the provider original (unstored)
URL: storage failure never turns a successful generation into a
failure. -/
theorem ImageGenerationTool.storage_failure_degraded_success
    (menv : MinioEnv) (item : DoubaoItem) (rest : List DoubaoItem)
    (p : String) (ref : Option String) (u : String)
    (hurl : item.url = some u) (hne : u ≠ "")
    (hup : menv.upload_image_from_url u "generated-images" = none) :
    ImageGenerationTool.generate_image true menv (.ok (item :: rest)) p ref
      = some { success := true, minio_path := none, presigned_url := some u
               prompt := some p, original_url := some u } := by
  unfold ImageGenerationTool.generate_image
  simp [hurl, hne, hup]

/-- C4 witness at a concrete provider reply and failing store. -/
theorem ImageGenerationTool.storage_failure_degraded_success_witness :
    ImageGenerationTool.generate_image true menvUploadFail genApiOk
      "a cat" none =
    some { success := true, minio_path := none
           presigned_url := some "http://gen/img.jpg"
           prompt := some "a cat"
           original_url := some "http://gen/img.jpg" } :=
  ImageGenerationTool.storage_failure_degraded_success menvUploadFail
    { url := some "http://gen/img.jpg" } [] "a cat" none
    "http://gen/img.jpg" rfl (by decide) rfl

/-- C5 counterexample: when the upload succeeds but presigned-URL signing
fails, the search tool returns a record with success true whose retrieval
URL is absent, contradicting the claimed invariant. -/
theorem ImageSearchTool.success_without_retrieval_url_cex :
    ImageSearchTool.search_image menvSignFail apiCat "猫" =
      some catRecNoUrl ∧
    catRecNoUrl.success = true ∧ catRecNoUrl.presigned_url = none :=
  ⟨rfl, rfl, rfl⟩

/-- C5 amended: a record returned by the search tool or the real
generation tool always has success true, and its retrieval URL is the
result of signing the stored handle (hence absent exactly when signing
failed) or, for generation with a failed upload, the non-empty provider
original URL; the mock generation record has success false and no
retrieval URL. -/
theorem ImageResult.retrieval_url_invariant (menv : MinioEnv)
    (sapi : SearchApiResult) (gapi : GenApiResult) (q p : String)
    (ref : Option String) :
    (∀ r, ImageSearchTool.search_image menv sapi q = some r →
      r.success = true ∧ ∃ mp, r.minio_path = some mp ∧
        r.presigned_url = menv.get_image_url mp) ∧
    (∀ r, ImageGenerationTool.generate_image true menv gapi p ref = some r →
      r.success = true ∧
      ((∃ mp, r.minio_path = some mp ∧
          r.presigned_url = menv.get_image_url mp) ∨
       (r.minio_path = none ∧ ∃ u, u ≠ "" ∧ r.presigned_url = some u ∧
          r.original_url = some u))) ∧
    (ImageGenerationTool.generate_image_simple p ref).success = false ∧
    (ImageGenerationTool.generate_image_simple p ref).presigned_url = none :=
  ⟨fun r h => ImageSearchTool.search_image_success menv sapi q r h,
   fun r h => ImageGenerationTool.generate_image_success menv gapi p ref r h,
   rfl, rfl⟩

/-- C5 amended witness at concrete inputs. -/
theorem ImageResult.retrieval_url_invariant_witness :
    (catRecOk.success = true ∧ ∃ mp, catRecOk.minio_path = some mp ∧
      catRecOk.presigned_url = menvOk.get_image_url mp) ∧
    (ImageGenerationTool.generate_image_simple "a cat" none).presigned_url
      = none := by
  have h := ImageResult.retrieval_url_invariant menvOk apiCat genApiOk
    "猫" "a cat" none
  exact ⟨h.1 catRecOk rfl, h.2.2.2⟩

/-- C7: the search tool returns a failure (None, the empty reference) and
never raises when the provider call errors or times out, the result set
is empty, the first result has a missing or empty image URL, or the
fetched image cannot be stored: a found-but-unstored image is a failed
search. -/
theorem ImageSearchTool.search_failures_return_none (menv : MinioEnv)
    (q : String) :
    ImageSearchTool.search_image menv .error q = none ∧
    ImageSearchTool.search_image menv (.ok []) q = none ∧
    (∀ img rest, img.imageUrl = none →
      ImageSearchTool.search_image menv (.ok (img :: rest)) q = none) ∧
    (∀ img rest, img.imageUrl = some "" →
      ImageSearchTool.search_image menv (.ok (img :: rest)) q = none) ∧
    (∀ img rest u, img.imageUrl = some u →
      menv.upload_image_from_url u "search-results" = none →
      ImageSearchTool.search_image menv (.ok (img :: rest)) q = none) := by
  refine ⟨rfl, rfl, ?_, ?_, ?_⟩
  · intro img rest h
    unfold ImageSearchTool.search_image
    simp [h]
  · intro img rest h
    unfold ImageSearchTool.search_image
    simp [h]
  · intro img rest u h hup
    unfold ImageSearchTool.search_image
    rcases eq_or_ne u "" with he | he <;> simp [h, he, hup]

/-- C7 witness: each failure mode at a concrete input. -/
theorem ImageSearchTool.search_failures_return_none_witness :
    ImageSearchTool.search_image menvOk .error "猫" = none ∧
    ImageSearchTool.search_image menvOk (.ok []) "猫" = none ∧
    ImageSearchTool.search_image menvOk (.ok [{ imageUrl := none }]) "猫"
      = none ∧
    ImageSearchTool.search_image menvOk (.ok [{ imageUrl := some "" }]) "猫"
      = none ∧
    ImageSearchTool.search_image menvUploadFail apiCat "猫" = none := by
  have h1 := ImageSearchTool.search_failures_return_none menvOk "猫"
  have h2 := ImageSearchTool.search_failures_return_none menvUploadFail "猫"
  exact ⟨h1.1, h1.2.1, h1.2.2.1 { imageUrl := none } [] rfl,
    h1.2.2.2.1 { imageUrl := some "" } [] rfl,
    h2.2.2.2.2 { imageUrl := some "http://img/cat.jpg", title := some "cat"
                 source := some "web" } [] "http://img/cat.jpg" rfl rfl⟩

/-- C8: for any image-branch state, the formatted response is the
newline-join of the reference lines followed by the generation lines,
where the reference lines are exactly one of the found pair and the fixed
no-reference line, and the generation lines are exactly one of the
three-part success block and the fixed failure line. -/
theorem ImageAgent.format_image_branch_structure (s : AgentState)
    (h : s.need_image_generation = true) :
    (ImageAgent.format_response s).response =
      String.intercalate "\n"
        (ImageAgent.refParts s ++ ImageAgent.genParts s) ∧
    (if ImageAgent.refSuccessB s = true then
       ∃ t u, ImageAgent.refParts s =
         ["✅ 已找到参考图片：" ++ t, "📷 参考图片链接：" ++ u]
     else ImageAgent.refParts s = ["⚠️ 未找到合适的参考图片"]) ∧
    (if ImageAgent.genSuccessB s = true then
       ∃ u p, ImageAgent.genParts s =
         ["\n✨ 已根据您的需求生成新图片！", "🎨 生成的图片链接：" ++ u,
          "💡 生成提示词：" ++ p]
     else ImageAgent.genParts s = ["\n❌ 图片生成失败，请稍后重试"]) := by
  refine ⟨by simp [ImageAgent.format_response, h], ?_, ?_⟩
  · unfold ImageAgent.refSuccessB ImageAgent.refParts
    rcases s.reference_image with _ | r
    · simp
    · cases hr : r.success <;> simp [hr]
  · unfold ImageAgent.genSuccessB ImageAgent.genParts
    rcases s.generated_image with _ | g
    · simp
    · cases hg : g.success <;> simp [hg]

/-- C8 witness at a concrete both-success image-branch state. -/
theorem ImageAgent.format_image_branch_structure_witness :
    (ImageAgent.format_response sBoth).response =
      String.intercalate "\n"
        (ImageAgent.refParts sBoth ++ ImageAgent.genParts sBoth) :=
  (ImageAgent.format_image_branch_structure sBoth rfl).1

/-- C9 counterexample: at a concrete state in which both the reference
search and the generation report success, the formatter emits five parts
whose newline-join contains five newline characters — six
newline-separated segments, not four lines. -/
theorem ImageAgent.both_success_not_four_lines_cex :
    (ImageAgent.refParts sBoth ++ ImageAgent.genParts sBoth).length = 5 ∧
    (ImageAgent.format_response sBoth).response =
      "✅ 已找到参考图片：cat\n📷 参考图片链接：http://minio/sr\n\n✨ 已根据您的需求生成新图片！\n🎨 生成的图片链接：http://minio/gen\n💡 生成提示词：a cat" ∧
    (ImageAgent.format_response sBoth).response.data.count '\n' = 5 :=
  ⟨rfl, rfl, rfl⟩

/-- C9 amended: when both the reference search and the generation report
success, the formatted response consists of five parts in the fixed
order — the two reference lines, then the three-part generation block,
whose first part begins with an extra newline — joined by newline
separators. -/
theorem ImageAgent.both_success_five_parts (s : AgentState)
    (r g : ImageResult) (h0 : s.need_image_generation = true)
    (h1 : s.reference_image = some r) (h2 : r.success = true)
    (h3 : s.generated_image = some g) (h4 : g.success = true) :
    ImageAgent.refParts s ++ ImageAgent.genParts s =
      ["✅ 已找到参考图片：" ++ r.title.getD "样例图片",
       "📷 参考图片链接：" ++ pyStr r.presigned_url,
       "\n✨ 已根据您的需求生成新图片！",
       "🎨 生成的图片链接：" ++ pyStr g.presigned_url,
       "💡 生成提示词：" ++ g.prompt.getD ""] ∧
    (ImageAgent.format_response s).response =
      String.intercalate "\n"
        (ImageAgent.refParts s ++ ImageAgent.genParts s) := by
  constructor
  · simp [ImageAgent.refParts, ImageAgent.genParts, h1, h2, h3, h4]
  · simp [ImageAgent.format_response, h0]

/-- C9 amended witness at the concrete both-success state. -/
theorem ImageAgent.both_success_five_parts_witness :
    ImageAgent.refParts sBoth ++ ImageAgent.genParts sBoth =
      ["✅ 已找到参考图片：" ++ catRecOk.title.getD "样例图片",
       "📷 参考图片链接：" ++ pyStr catRecOk.presigned_url,
       "\n✨ 已根据您的需求生成新图片！",
       "🎨 生成的图片链接：" ++ pyStr genRecOk.presigned_url,
       "💡 生成提示词：" ++ genRecOk.prompt.getD ""] :=
  (ImageAgent.both_success_five_parts sBoth catRecOk genRecOk rfl rfl rfl
    rfl rfl).1
